import Mathlib

/-!
Shallow embedding of the two converter scripts of this repository
(`script/bibtex2html.py` and `script/presentation_html.py`) together with
theorems settling the specification claims about them.

Strings are modelled by Lean `String` (a wrapper around `List Char`); Python
semantics that the scripts rely on (dict construction and lookup, `str.strip`,
`int()` conversion, `str.replace`, truthiness of strings, `str.format` of
`None`, stable `list.sort`) are modelled by the explicit `py*` helpers below.
Literal braces that the Python templates write as doubled braces for
`str.format` appear here once, already rendered, since the embedding models the
formatted output.
-/

namespace Site

/-- Python whitespace for `str.strip()`: space, tab, newline, carriage return,
vertical tab, form feed. -/
def isPyWhitespace (c : Char) : Bool :=
  c == ' ' || c == '\t' || c == '\n' || c == '\r' || c == '\x0b' || c == '\x0c'

/-- Model of Python `str.strip()`: drop leading and trailing whitespace. -/
def pyStrip (s : String) : String :=
  String.mk (((s.data.dropWhile isPyWhitespace).reverse.dropWhile isPyWhitespace).reverse)

/-- Lookup in an association list representing a Python dict (keys are unique
because insertion is done with `pyInsert`): first match. -/
def pyLookup (k : String) : List (String × String) → Option String
  | [] => none
  | (k', v) :: rest => if k' = k then some v else pyLookup k rest

/-- Model of Python `dict.get(k, default)`. -/
def pyGet (d : List (String × String)) (k dflt : String) : String :=
  (pyLookup k d).getD dflt

/-- Model of Python `dict[k] = v`: overwrite in place when the key exists
(keeping its position, as Python dicts keep insertion order), append otherwise. -/
def pyInsert (k v : String) : List (String × String) → List (String × String)
  | [] => [(k, v)]
  | (k', v') :: rest => if k' = k then (k, v) :: rest else (k', v') :: pyInsert k v rest

/-- Digit-string value; `none` when empty or any character is not an ASCII digit. -/
def parseDigits (l : List Char) : Option Nat :=
  if l = [] then none
  else if l.all (fun c => c.isDigit) then
    some (l.foldl (fun n c => n * 10 + (c.toNat - 48)) 0)
  else none

/-- Model of Python `int(s)` on strings: surrounding whitespace is ignored, an
optional single sign is allowed, the rest must be ASCII digits; `none` models
the `ValueError` path. -/
def pyIntParse (s : String) : Option Int :=
  match (pyStrip s).data with
  | [] => none
  | c :: rest =>
    if c = '-' then (parseDigits rest).map (fun n => -(n : Int))
    else if c = '+' then (parseDigits rest).map (fun n => (n : Int))
    else (parseDigits (c :: rest)).map (fun n => (n : Int))

/-- Fuel-driven left-to-right non-overlapping replacement on character lists;
the fuel is an upper bound on the input length (each step consumes at least one
character for the non-empty patterns used here). -/
def replaceFuel (pat rep : List Char) : Nat → List Char → List Char
  | 0, s => s
  | _ + 1, [] => []
  | n + 1, c :: rest =>
    if pat.isPrefixOf (c :: rest) then
      rep ++ replaceFuel pat rep n (rest.drop (pat.length - 1))
    else
      c :: replaceFuel pat rep n rest

/-- Model of Python `str.replace(pat, rep)` for non-empty patterns. -/
def pyReplace (s pat rep : String) : String :=
  String.mk (replaceFuel pat.data rep.data s.data.length s.data)

/-- Splitting a character list at every occurrence of a separator character;
models how the scripts consume their input line by line (a trailing newline
yields a trailing empty line, which the parsers treat as blank). -/
def splitOnChar (sep : Char) : List Char → List (List Char)
  | [] => [[]]
  | c :: rest =>
    if c = sep then [] :: splitOnChar sep rest
    else
      match splitOnChar sep rest with
      | [] => [[c]]
      | l :: ls => (c :: l) :: ls

/-- The lines of a text file, as the Python scripts iterate over them. -/
def pyLines (content : String) : List String :=
  (splitOnChar '\n' content.data).map String.mk

/-- Model of how Python `str.format` renders an optional command-line argument:
`None` is rendered as the literal string `"None"`. -/
def pyFormatOptStr : Option String → String
  | none => "None"
  | some s => s

/-! ## `script/bibtex2html.py` -/

/-- The `JOURNAL_MAP` dict literal of `bibtex2html.py`, built pair by pair with
Python dict-insertion semantics, so the duplicate key is overwritten by its
second occurrence. -/
def JOURNAL_MAP : List (String × String) :=
  [("\\pasj", "Publications of the Astronomical Society of Japan"),
   ("\\nat", "Nature"),
   ("\\icarus", "Icarus"),
   ("\\aj", "Astronomical Journal"),
   ("\\apj", "Astrophysical Journal"),
   ("\\apjl", "ApJL"),
   ("\\apjs", "ApJS"),
   ("\\pasp", "PASP"),
   ("\\mnras", "MNRAS"),
   ("\\aap", "A&A"),
   ("\\grl", "GRL"),
   ("\\psj", "PSJ"),
   ("\\araa", "ARAA"),
   ("\\gca", "GCA"),
   ("\\aap", "Astronomy & Astrophysics")].foldl (fun d kv => pyInsert kv.1 kv.2 d) []

/-- The `LATEX_ACCENTS` dict of `bibtex2html.py` (all keys distinct, so
iteration order is the literal order). -/
def LATEX_ACCENTS : List (String × String) :=
  [("\\\"a", "ä"), ("\\\"o", "ö"), ("\\\"u", "ü"),
   ("\\\"A", "Ä"), ("\\\"O", "Ö"), ("\\\"U", "Ü"),
   ("\\\x27a", "á"), ("\\\x27e", "é"), ("\\\x27i", "í"), ("\\\x27o", "ó"), ("\\\x27u", "ú"),
   ("\\\x60a", "à"), ("\\\x60e", "è"), ("\\\x60i", "ì"), ("\\\x60o", "ò"), ("\\\x60u", "ù"),
   ("\\~n", "ñ"), ("\\ss", "ß"),
   ("\\^a", "â"), ("\\^e", "ê"), ("\\^i", "î"), ("\\^o", "ô"), ("\\^u", "û")]

/-- `latex_to_unicode`: apply every accent substitution in table order, then
remove residual grouping braces. -/
def latex_to_unicode (text : String) : String :=
  pyReplace (pyReplace (LATEX_ACCENTS.foldl (fun s kv => pyReplace s kv.1 kv.2) text)
    "\x7b" "") "\x7d" ""

/-- `normalize_journal`: strip, then look up in `JOURNAL_MAP` with the stripped
string itself as the default. -/
def normalize_journal (journal : String) : String :=
  pyGet JOURNAL_MAP (pyStrip journal) (pyStrip journal)

/-- A parsed bibliography entry as the script receives it from the external
bibliography parser: its field dict and the display strings of its authors. -/
structure BibEntry where
  fields : List (String × String)
  authors : List String
deriving DecidableEq

/-- The integer sort key a pooled entry is annotated with:
`int(entry.fields.get("year", "9999"))`, with `9999` on `ValueError`. -/
def yearKey (e : BibEntry) : Int :=
  (pyIntParse (pyGet e.fields "year" "9999")).getD 9999

/-- The year of an entry when its `year` field is present and parseable
(the specification's notion of a valid year). -/
def validYear (e : BibEntry) : Option Int :=
  (pyLookup "year" e.fields).bind pyIntParse

/-- Stable insertion of an element into a list already sorted by an integer
key: walk past strictly smaller keys only, so the new element lands before
every element of equal key that was inserted into the sorted list later. -/
def insByKey {α : Type} (key : α → Int) (p : α) : List α → List α
  | [] => [p]
  | q :: qs => if key q < key p then q :: insByKey key p qs else p :: q :: qs

/-- Model of Python's stable `list.sort(key=...)`: a stable sort is uniquely
determined by its key order (sortedness, permutation and preservation of the
relative order of equal keys are proved below), so this insertion sort computes
exactly what `all_entries.sort(key=lambda x: x[0])` computes. -/
def pySort {α : Type} (key : α → Int) : List α → List α
  | [] => []
  | p :: ps => insByKey key p (pySort key ps)

/-- The pooled entry list of `bib_to_table_rows`: all entries of all files in
order, each annotated with its year key, then stably sorted by that key. -/
def pooledSorted (files : List (List BibEntry)) : List (Int × BibEntry) :=
  pySort (fun p => p.1) (files.flatten.map (fun e => (yearKey e, e)))

/-- The author cell: in first-author mode with a non-empty list, bold the first
author and truncate to three names plus ", et al." when more than three;
otherwise join all authors, with "Unknown" for an empty list. -/
def authorsCell (first_author_table : Bool) (authors_list : List String) : String :=
  match first_author_table, authors_list with
  | true, a :: rest =>
    let bolded := ("<b>" ++ a ++ "</b>") :: rest
    if bolded.length > 3 then
      String.intercalate ", " (bolded.take 3) ++ ", et al."
    else
      String.intercalate ", " bolded
  | _, l => if l = [] then "Unknown" else String.intercalate ", " l

/-- The title hyperlink target: a DOI-resolution URL when the `doi` field is
truthy (present and non-empty), otherwise the `url` field, defaulting to "#". -/
def titleUrl (fields : List (String × String)) : String :=
  let doi := pyGet fields "doi" ""
  if doi = "" then pyGet fields "url" "#" else "https://doi.org/" ++ doi

/-- The three formatted cells of one bibliography table row. -/
structure BibRowCells where
  authorsHtml : String
  titleHtml : String
  journalInfo : String
deriving DecidableEq

/-- The cell contents computed inside the loop of `bib_to_table_rows` for one
sorted entry. -/
def mkRowCells (first_author_table : Bool) (year : Int) (e : BibEntry) : BibRowCells :=
  let authors_list := e.authors.map (fun p => latex_to_unicode p)
  let authors_html := authorsCell first_author_table authors_list
  let title := latex_to_unicode (pyGet e.fields "title" "No title")
  let url := titleUrl e.fields
  let title_html := "<a href=\"" ++ url ++ "\" target=\"_blank\">" ++ title ++ "</a>"
  let journal := normalize_journal (pyGet e.fields "journal" "")
  let volume := pyGet e.fields "volume" ""
  let pages := pyGet e.fields "pages" ""
  let journal_info :=
    String.intercalate ", " (List.filter (fun s => !(s == ""))
      [journal, volume, pages, toString year])
  ⟨authors_html, title_html, journal_info⟩

/-- The `<tr>` fragment for one bibliography row. -/
def bibRowHtml (i : Nat) (first_author_table : Bool) (year : Int) (e : BibEntry) : String :=
  let c := mkRowCells first_author_table year e
  "        <tr>\n          <td>" ++ toString i ++
    "</td>\n          <td class=\x27authors\x27>" ++ c.authorsHtml ++
    "</td>\n          <td>" ++ c.titleHtml ++
    "</td>\n          <td>" ++ c.journalInfo ++
    "</td>\n        </tr>"

/-- `bib_to_table_rows`: one HTML row per pooled sorted entry, numbered from 1. -/
def bib_to_table_rows (files : List (List BibEntry)) (first_author_table : Bool) : List String :=
  (pooledSorted files).enum.map (fun p => bibRowHtml (p.1 + 1) first_author_table p.2.1 p.2.2)

/-- `generate_table`: empty string for an empty file list, otherwise heading,
header row, the joined data rows and the closing tag. -/
def generate_table (title : String) (files : List (List BibEntry))
    (first_author_table : Bool) : String :=
  if files = [] then ""
  else
    "      <h1>" ++ title ++ "</h1>\n      <hr>\n      <table class=\"pub-list\">\n" ++
    "        <tr>\n          <th>#</th>\n          <th>Authors</th>\n" ++
    "          <th>Title</th>\n          <th>Journal / Year</th>\n        </tr>\n" ++
    String.intercalate "\n" (bib_to_table_rows files first_author_table) ++
    "\n      </table>\n"

/-- The rendered part of `HTML_TEMPLATE` of `bibtex2html.py` before the
`tables` slot. -/
def BIB_HEAD : String :=
  "<!DOCTYPE html>\n<html lang=\"en\">\n  <head>\n" ++
  "    <!-- Global site tag (gtag.js) - Google Analytics -->\n" ++
  "    <script async src=\"https://www.googletagmanager.com/gtag/js?id=UA-143048532-1\"></script>\n" ++
  "    <script>\n    window.dataLayer = window.dataLayer || [];\n" ++
  "    function gtag()\x7bdataLayer.push(arguments);\x7d\n" ++
  "    gtag(\x27js\x27, new Date());\n" ++
  "    gtag(\x27config\x27, \x27UA-143048532-1\x27);\n" ++
  "    </script> \n    <meta charset=\"utf-8\">\n" ++
  "    <link rel=\"icon\" type=\"image/x-icon\" href=\"fig/favicon.ico\">\n" ++
  "    <link rel=\"stylesheet\" href=\"common/css/beni.css\">\n" ++
  "    <title>Publications</title>\n    <style>\n" ++
  "      table.pub-list \x7b\n        border-collapse: collapse;\n        width: 100%;\n      \x7d\n" ++
  "      table.pub-list th, table.pub-list td \x7b\n        border: 1px solid #ddd;\n" ++
  "        padding: 8px;\n        vertical-align: top;\n      \x7d\n" ++
  "      table.pub-list th \x7b\n        background-color: #f2f2f2;\n        text-align: left;\n      \x7d\n" ++
  "      .authors \x7b\n        white-space: pre-line;\n      \x7d\n" ++
  "    </style>\n  </head>\n  <body>\n    <div id=\"page\">\n"

/-- The rendered part of `HTML_TEMPLATE` of `bibtex2html.py` after the
`tables` slot. -/
def BIB_TAIL : String :=
  "\n\n      <h1>Links</h1>\n      <hr>\n      <ul>\n" ++
  "        <li><a href=\"index.html\">Back to home</a></li>\n      </ul>\n\n" ++
  "      <footer id=\"pageFoot\">\n" ++
  "        <p id=\"copyright\"><small>Copyright &copy; Jin BENIYAMA</small></p>\n" ++
  "      </footer>\n    </div>\n  </body>\n</html>\n"

/-- The concatenated tables of `main` in `bibtex2html.py`; `none` models an
absent `--first` / `--Nth` flag. -/
def bibTables (first nth : Option (List (List BibEntry))) : String :=
  (match first with
   | none => ""
   | some fs => generate_table "Refereed Articles (First author)" fs true) ++
  (match nth with
   | none => ""
   | some fs => generate_table "Refereed Articles (Nth author)" fs false)

/-- The full HTML document written by `bibtex2html.py`. The `now` parameter is
the wall-clock date available to the process; the script never consults it, so
it does not occur in the body. -/
def bibRun (now : String) (first nth : Option (List (List BibEntry))) : String :=
  BIB_HEAD ++ bibTables first nth ++ BIB_TAIL

/-! ## `script/presentation_html.py`

The module as shipped does not compile: line 167 ends with a stray U+30FC
character (a katakana prolonged sound mark) left after `plt.plot(...)` inside
`plot_yearly_counts_scatter`, so the Python compiler raises `SyntaxError`
before any definition of the module executes and every invocation of the
script fails without producing records, counts or output. The definitions
below therefore model the behavior the module's lines describe — the intended
semantics of the parser, the renderer and the chart counter — which the
shipped program can never exhibit. -/

/-- A presentation record: the `Key: value` dict parsed from one block. -/
abbrev Record := List (String × String)

/-- The key part of `line.split(':', 1)`: everything before the first colon. -/
def keyOf (s : String) : String :=
  String.mk (s.data.takeWhile (fun c => c != ':'))

/-- The value part of `line.split(':', 1)`: everything after the first colon. -/
def valOf (s : String) : String :=
  String.mk (s.data.drop ((s.data.takeWhile (fun c => c != ':')).length + 1))

/-- One iteration of the reading loop of `parse_txt_file`, acting on the state
(finished entries, current record): a blank line flushes a non-empty current
record, a line without a colon is skipped, any other line contributes one
trimmed key/value pair to the current record. -/
def parseStep (st : List Record × Record) (rawLine : String) : List Record × Record :=
  let line := pyStrip rawLine
  if line = "" then
    if st.2 = [] then st else (st.1 ++ [st.2], [])
  else if line.data.contains ':' = false then st
  else (st.1, pyInsert (pyStrip (keyOf line)) (pyStrip (valOf line)) st.2)

/-- The final flush of `parse_txt_file`: append the current record to the
finished entries when it is non-empty. -/
def parseFinish (st : List Record × Record) : List Record :=
  if st.2 = [] then st.1 else st.1 ++ [st.2]

/-- The reading loop of `parse_txt_file` over a list of lines, with the final
flush of a trailing non-empty record at end-of-file. -/
def parseLines (lines : List String) : List Record :=
  parseFinish (lines.foldl parseStep ([], []))

/-- `parse_txt_file`: parse the whole text of a presentation log. This is the
intended semantics of source lines 70-88; because of the module-level
`SyntaxError` (stray U+30FC at line 167) the function is never actually
executed by the shipped program. -/
def parse_txt_file (content : String) : List Record :=
  parseLines (pyLines content)

/-- The `<tr>` fragment for one presentation row. -/
def presRowHtml (i : Nat) (e : Record) : String :=
  let presenters := pyGet e "Presenters" "Unknown"
  let title_val := pyGet e "Title" "No title"
  let event := pyGet e "Event" ""
  let location := pyGet e "Location" ""
  let dates := pyGet e "Dates" ""
  let type_val := pyGet e "Type" ""
  let url := pyStrip (pyGet e "URL" "")
  let memo := pyGet e "Memo" ""
  let title_html :=
    if url = "" then title_val
    else "<a href=\"" ++ url ++ "\" target=\"_blank\">" ++ title_val ++ "</a>"
  "        <tr>\n          <td>" ++ toString i ++
    "</td>\n          <td class=\x27authors\x27>" ++ presenters ++
    "</td>\n          <td>" ++ title_html ++
    "</td>\n          <td>" ++ event ++
    "</td>\n          <td>" ++ location ++
    "</td>\n          <td>" ++ dates ++
    "</td>\n          <td>" ++ type_val ++
    "</td>\n          <td>" ++ memo ++
    "</td>\n        </tr>"

/-- The data rows of `make_table_html`, numbered from 1 in file order. -/
def presTableRows (entries : List Record) : List String :=
  entries.enum.map (fun p => presRowHtml (p.1 + 1) p.2)

/-- `make_table_html`: heading, header row, joined data rows, closing tag. -/
def make_table_html (entries : List Record) (title : String) : String :=
  "      <h1>" ++ title ++ "</h1>\n      <hr>\n      <table class=\"pub-list\">\n" ++
  "        <tr>\n          <th>#</th>\n          <th>Presenters</th>\n" ++
  "          <th>Title</th>\n          <th>Event</th>\n          <th>Location</th>\n" ++
  "          <th>Dates</th>\n          <th>Type</th>\n          <th>Memo</th>\n        </tr>\n" ++
  String.intercalate "\n" (presTableRows entries) ++
  "\n      </table>\n"

/-- The two concatenated tables built by `main` of `presentation_html.py`. -/
def presTables (domestic international : List Record) : String :=
  make_table_html domestic "Domestic Presentations" ++
  make_table_html international "International Presentations"

/-- The rendered part of `HTML_TEMPLATE` of `presentation_html.py` before the
`last_update` slot. -/
def PRES_A : String :=
  "<!DOCTYPE html>\n<html lang=\"en\">\n  <head>\n    <meta charset=\"utf-8\">\n" ++
  "    <link rel=\"icon\" type=\"image/x-icon\" href=\"fig/favicon.ico\">\n" ++
  "    <link rel=\"stylesheet\" href=\"common/css/beni.css\">\n" ++
  "    <title>Presentations</title>\n    <style>\n" ++
  "      table.pub-list \x7b\n        border-collapse: collapse;\n        width: 100%;\n      \x7d\n" ++
  "      table.pub-list th, table.pub-list td \x7b\n        border: 1px solid #ddd;\n" ++
  "        padding: 8px;\n        vertical-align: top;\n      \x7d\n" ++
  "      table.pub-list th \x7b\n        background-color: #f2f2f2;\n        text-align: left;\n      \x7d\n" ++
  "      .authors \x7b\n        white-space: pre-line;\n      \x7d\n" ++
  "    </style>\n  </head>\n  <body>\n    <div id=\"page\">\n" ++
  "  These are list of my presentations. Last updated on "

/-- The template text between the `last_update` slot and the `fig_file` slot. -/
def PRES_B : String := " \n  <img src=\""

/-- The template text between the `fig_file` slot and the `tables` slot. -/
def PRES_C : String :=
  "\" alt=\"Presentations per Year\" style=\"max-width:100%;height:auto;\">\n\n"

/-- The template text after the `tables` slot. -/
def PRES_D : String :=
  "\n\n      <h1>Links</h1>\n      <hr>\n      <ul>\n" ++
  "        <li><a href=\"index.html\">Back to home</a></li>\n      </ul>\n\n" ++
  "      <footer id=\"pageFoot\">\n" ++
  "        <p id=\"copyright\"><small>Copyright &copy; Jin BENIYAMA</small></p>\n" ++
  "      </footer>\n    </div>\n  </body>\n</html>\n"

/-- The HTML document `main` of `presentation_html.py` is written to produce:
the template with the current date, the raw `--fig` argument and the two
tables interpolated. Because of the module-level `SyntaxError` (stray U+30FC
at line 167) the shipped program aborts before `main` and never writes this
document. -/
def presRun (now : String) (fig : Option String)
    (domestic international : List Record) : String :=
  PRES_A ++ now ++ PRES_B ++ pyFormatOptStr fig ++ PRES_C ++
    presTables domestic international ++ PRES_D

/-- The start date of a record for the chart: the part of the `Dates` field
before the first `;` or en-dash, stripped. -/
def startDateOf (dates : String) : String :=
  pyStrip (String.mk (dates.data.takeWhile (fun c => !(c == ';' || c == '–'))))

/-- Python `s[:4]`: the first four characters (fewer when the string is short). -/
def take4 (s : String) : String :=
  String.mk (s.data.take 4)

/-- The chart year of a record: `int(start_date[:4])` of a truthy `Dates`
field; `none` models both the skipped empty field and the `ValueError` path. -/
def startYearOf (e : Record) : Option Int :=
  let dates := pyGet e "Dates" ""
  if dates = "" then none
  else pyIntParse (take4 (startDateOf dates))

/-- One iteration of `count_per_year`: bump the count of the record's start
year when it parses, leave the counter unchanged otherwise. -/
def chartStep (cnt : Int → Nat) (e : Record) : Int → Nat :=
  match startYearOf e with
  | some year => fun y => if y = year then cnt y + 1 else cnt y
  | none => cnt

/-- `count_per_year` of `plot_yearly_counts_scatter`, as the per-year counting
function its lines compute. The stray U+30FC of line 167 sits inside this very
enclosing function, so the shipped program can never evaluate the closure:
this is its intended semantics only. -/
def count_per_year (entries : List Record) : Int → Nat :=
  entries.foldl chartStep (fun _ => 0)

/-! ## Lemmas about the stable sort -/

theorem insByKey_perm {α : Type} (key : α → Int) (p : α) (l : List α) :
    List.Perm (insByKey key p l) (p :: l) := by
  induction l with
  | nil => exact List.Perm.refl _
  | cons q qs ih =>
    simp only [insByKey]
    split
    · exact (List.Perm.cons q ih).trans (List.Perm.swap p q qs)
    · exact List.Perm.refl _

theorem pySort_perm {α : Type} (key : α → Int) (l : List α) :
    List.Perm (pySort key l) l := by
  induction l with
  | nil => exact List.Perm.refl _
  | cons p ps ih => exact (insByKey_perm key p _).trans (List.Perm.cons p ih)

theorem insByKey_pairwise {α : Type} (key : α → Int) (p : α) {l : List α}
    (h : l.Pairwise (fun a b => key a ≤ key b)) :
    (insByKey key p l).Pairwise (fun a b => key a ≤ key b) := by
  induction l with
  | nil => simp [insByKey]
  | cons q qs ih =>
    rw [List.pairwise_cons] at h
    obtain ⟨hq, hqs⟩ := h
    simp only [insByKey]
    split
    · rename_i hlt
      rw [List.pairwise_cons]
      refine ⟨?_, ih hqs⟩
      intro x hx
      rcases List.mem_cons.mp ((insByKey_perm key p qs).mem_iff.mp hx) with hx | hx
      · exact hx ▸ le_of_lt hlt
      · exact hq x hx
    · rename_i hnlt
      rw [List.pairwise_cons]
      refine ⟨?_, List.pairwise_cons.mpr ⟨hq, hqs⟩⟩
      intro x hx
      rcases List.mem_cons.mp hx with hx | hx
      · exact hx ▸ le_of_not_lt hnlt
      · exact le_trans (le_of_not_lt hnlt) (hq x hx)

theorem pySort_pairwise {α : Type} (key : α → Int) (l : List α) :
    (pySort key l).Pairwise (fun a b => key a ≤ key b) := by
  induction l with
  | nil => simp [pySort]
  | cons p ps ih => exact insByKey_pairwise key p ih

theorem insByKey_filter {α : Type} (key : α → Int) (p : α) (l : List α) (k : Int) :
    (insByKey key p l).filter (fun a => key a == k) =
      if key p == k then p :: l.filter (fun a => key a == k)
      else l.filter (fun a => key a == k) := by
  induction l with
  | nil =>
    by_cases hpk : key p = k <;> simp [insByKey, hpk]
  | cons q qs ih =>
    simp only [insByKey]
    split
    · rename_i hlt
      by_cases hq : key q = k
      · have hpk : ¬ key p = k := by omega
        simp [List.filter_cons, beq_iff_eq, hq, hpk, ih]
      · simp [List.filter_cons, beq_iff_eq, hq, ih]
    · simp [List.filter_cons]

theorem pySort_filter {α : Type} (key : α → Int) (l : List α) (k : Int) :
    (pySort key l).filter (fun a => key a == k) = l.filter (fun a => key a == k) := by
  induction l with
  | nil => rfl
  | cons p ps ih =>
    simp only [pySort]
    rw [insByKey_filter, List.filter_cons, ih]

theorem pooledSorted_key (files : List (List BibEntry)) :
    ∀ p ∈ pooledSorted files, p.1 = yearKey p.2 := by
  intro p hp
  have h1 : p ∈ (files.flatten.map (fun e => (yearKey e, e))) :=
    (pySort_perm _ _).mem_iff.mp hp
  obtain ⟨e, _, he⟩ := List.mem_map.mp h1
  rw [← he]

theorem yearKey_of_none {e : BibEntry} (h : validYear e = none) : yearKey e = 9999 := by
  unfold validYear at h
  unfold yearKey pyGet
  cases hl : pyLookup "year" e.fields with
  | none => decide
  | some s =>
    rw [hl] at h
    simp at h
    simp [h]

theorem yearKey_of_some {e : BibEntry} {y : Int} (h : validYear e = some y) :
    yearKey e = y := by
  unfold validYear at h
  unfold yearKey pyGet
  cases hl : pyLookup "year" e.fields with
  | none =>
    rw [hl] at h
    simp at h
  | some s =>
    rw [hl] at h
    simp at h
    simp [h]

/-! ## Lemmas about the presentation-log parser -/

theorem parseStep_blank (st : List Record × Record) (l : String) (h : pyStrip l = "") :
    parseStep st l = (parseFinish st, []) := by
  obtain ⟨es, cur⟩ := st
  simp only [parseStep]
  rw [if_pos h]
  unfold parseFinish
  by_cases h2 : cur = []
  · subst h2
    simp
  · simp [h2]

theorem parseStep_skip (st : List Record × Record) (l : String) (h1 : ¬ pyStrip l = "")
    (h2 : (pyStrip l).data.contains ':' = false) : parseStep st l = st := by
  simp only [parseStep]
  rw [if_neg h1, if_pos h2]

theorem parseStep_shift (es : List Record) (cur : Record) (l : String) :
    parseStep (es, cur) l =
      (es ++ (parseStep ([], cur) l).1, (parseStep ([], cur) l).2) := by
  simp only [parseStep]
  by_cases h1 : pyStrip l = ""
  · rw [if_pos h1, if_pos h1]
    by_cases h2 : cur = [] <;> simp [h2]
  · rw [if_neg h1, if_neg h1]
    by_cases h3 : (pyStrip l).data.contains ':' = false
    · rw [if_pos h3, if_pos h3]
      simp
    · rw [if_neg h3, if_neg h3]
      simp

theorem foldl_parseStep_shift (lines : List String) (es : List Record) (cur : Record) :
    lines.foldl parseStep (es, cur) =
      (es ++ (lines.foldl parseStep ([], cur)).1, (lines.foldl parseStep ([], cur)).2) := by
  induction lines generalizing es cur with
  | nil => simp
  | cons l ls ih =>
    rw [List.foldl_cons, List.foldl_cons, parseStep_shift es cur l,
      ih (es ++ (parseStep ([], cur) l).1) (parseStep ([], cur) l).2]
    conv_rhs =>
      rw [show parseStep ([], cur) l = ((parseStep ([], cur) l).1, (parseStep ([], cur) l).2)
        from rfl]
    rw [ih (parseStep ([], cur) l).1 (parseStep ([], cur) l).2]
    simp [List.append_assoc]

theorem parseFinish_append (es es' : List Record) (cur : Record) :
    parseFinish (es ++ es', cur) = es ++ parseFinish (es', cur) := by
  unfold parseFinish
  by_cases h : cur = [] <;> simp [h]

theorem parseLines_blank_split (ls₁ ls₂ : List String) :
    parseLines (ls₁ ++ "" :: ls₂) = parseLines ls₁ ++ parseLines ls₂ := by
  unfold parseLines
  rw [List.foldl_append, List.foldl_cons,
    parseStep_blank (ls₁.foldl parseStep ([], [])) "" (by decide),
    foldl_parseStep_shift ls₂ (parseFinish (ls₁.foldl parseStep ([], []))) [],
    parseFinish_append]

theorem parseLines_skip (pre post : List String) (l : String) (h1 : ¬ pyStrip l = "")
    (h2 : (pyStrip l).data.contains ':' = false) :
    parseLines (pre ++ l :: post) = parseLines (pre ++ post) := by
  unfold parseLines
  rw [List.foldl_append, List.foldl_cons, parseStep_skip _ l h1 h2, ← List.foldl_append]

theorem takeWhile_no_colon (l : List Char) :
    (l.takeWhile (fun c => c != ':')).contains ':' = false := by
  induction l with
  | nil => rfl
  | cons c cs ih =>
    simp only [List.takeWhile_cons]
    by_cases h : (c != ':') = true
    · rw [if_pos h, List.contains_cons]
      have hcn : ¬ c = ':' := by simpa using h
      have hc : (':' == c) = false := beq_eq_false_iff_ne.mpr (fun he => hcn he.symm)
      rw [hc, ih]
      rfl
    · rw [if_neg h]
      rfl

theorem takeWhile_colon_split (l : List Char) (h : l.contains ':' = true) :
    l.takeWhile (fun c => c != ':') ++
      ':' :: l.drop ((l.takeWhile (fun c => c != ':')).length + 1) = l := by
  induction l with
  | nil => simp at h
  | cons c cs ih =>
    simp only [List.takeWhile_cons]
    by_cases hc : c = ':'
    · subst hc
      rw [if_neg (by simp)]
      simp
    · have hpos : (c != ':') = true := by simpa using hc
      rw [if_pos hpos]
      have hcs : cs.contains ':' = true := by
        rw [List.contains_cons] at h
        have hb : (':' == c) = false := beq_eq_false_iff_ne.mpr (fun he => hc he.symm)
        simpa [hb] using h
      simp only [List.length_cons, List.drop_succ_cons]
      rw [List.cons_append, ih hcs]

/-! ## Lemmas about the chart counter -/

theorem foldl_chartStep (es : List Record) (cnt : Int → Nat) (y : Int) :
    (es.foldl chartStep cnt) y = cnt y + (es.filterMap startYearOf).count y := by
  induction es generalizing cnt with
  | nil => simp
  | cons e es ih =>
    rw [List.foldl_cons, ih, List.filterMap_cons]
    cases hs : startYearOf e with
    | none => simp [chartStep, hs]
    | some yr =>
      simp only [chartStep, hs, List.count_cons]
      by_cases hy : y = yr
      · subst hy
        simp
        omega
      · have hb : (yr == y) = false := by
          simp
          omega
        simp [hy, hb]

theorem count_per_year_eq (entries : List Record) (y : Int) :
    count_per_year entries y = (entries.filterMap startYearOf).count y := by
  unfold count_per_year
  rw [foldl_chartStep]
  simp

/-! ## Invariants of the parser state -/

theorem parseStep_keeps_nonempty (st : List Record × Record) (l : String)
    (h : ∀ r ∈ st.1, ¬ r = []) : ∀ r ∈ (parseStep st l).1, ¬ r = [] := by
  obtain ⟨es, cur⟩ := st
  simp only [parseStep]
  by_cases h1 : pyStrip l = ""
  · rw [if_pos h1]
    by_cases h2 : cur = []
    · simpa [h2] using h
    · simp only [h2, if_neg]
      intro r hr
      rcases List.mem_append.mp hr with hr | hr
      · exact h r hr
      · rw [List.mem_singleton] at hr
        exact hr ▸ h2
  · rw [if_neg h1]
    by_cases h3 : (pyStrip l).data.contains ':' = false
    · rw [if_pos h3]
      exact h
    · rw [if_neg h3]
      exact h

theorem foldl_keeps_nonempty (lines : List String) (st : List Record × Record)
    (h : ∀ r ∈ st.1, ¬ r = []) : ∀ r ∈ (lines.foldl parseStep st).1, ¬ r = [] := by
  induction lines generalizing st with
  | nil => exact h
  | cons l ls ih =>
    rw [List.foldl_cons]
    exact ih (parseStep st l) (parseStep_keeps_nonempty st l h)

theorem parseFinish_nonempty (st : List Record × Record) (h : ∀ r ∈ st.1, ¬ r = []) :
    ∀ r ∈ parseFinish st, ¬ r = [] := by
  unfold parseFinish
  by_cases h2 : st.2 = []
  · simpa [h2] using h
  · simp only [h2, if_neg]
    intro r hr
    rcases List.mem_append.mp hr with hr | hr
    · exact h r hr
    · rw [List.mem_singleton] at hr
      exact hr ▸ h2

theorem foldl_all_skipped (lines : List String)
    (h : ∀ l ∈ lines, pyStrip l = "" ∨ (pyStrip l).data.contains ':' = false) :
    lines.foldl parseStep ([], []) = ([], []) := by
  induction lines with
  | nil => rfl
  | cons l ls ih =>
    rw [List.foldl_cons]
    have hstep : parseStep (([] : List Record), ([] : Record)) l = ([], []) := by
      rcases h l (List.mem_cons_self l ls) with hb | hs
      · rw [parseStep_blank _ l hb]
        rfl
      · by_cases h1 : pyStrip l = ""
        · rw [parseStep_blank _ l h1]
          rfl
        · exact parseStep_skip _ l h1 hs
    rw [hstep]
    exact ih (fun l' hl' => h l' (List.mem_cons_of_mem l hl'))

/-! ## Claim theorems -/

/-- Claim C1, counterexample: the claim says an entry with missing or
unparseable year (sentinel 9999) appears after every entry with a valid year.
Pooling an entry with the valid, parseable year 10000 and an entry with no
year field, the sentinel entry is sorted first, before the valid-year entry. -/
theorem bib_sentinel_precedes_valid_year :
    validYear ⟨[("year", "10000")], []⟩ = some 10000 ∧
    validYear ⟨[], []⟩ = none ∧
    pooledSorted [[⟨[("year", "10000")], []⟩, ⟨[], []⟩]] =
      [(9999, ⟨[], []⟩), (10000, ⟨[("year", "10000")], []⟩)] :=
  ⟨by decide, by decide, by decide⟩

/-- Claim C1, amended: the pooled rows are non-decreasingly ordered by the
assigned year key, they are a permutation of the annotated input entries,
entries with equal key keep their original insertion order (equal-key
subsequences are preserved), and an entry whose year is missing or unparseable
(key 9999) appears after every entry whose valid year is less than 9999 (an
entry with a valid year of 9999 or more need not come after it). -/
theorem bib_rows_sorted_stable (files : List (List BibEntry)) :
    List.Pairwise (fun a b => a.1 ≤ b.1) (pooledSorted files) ∧
    List.Perm (pooledSorted files) (files.flatten.map (fun e => (yearKey e, e))) ∧
    (∀ k : Int, (pooledSorted files).filter (fun p => p.1 == k) =
      (files.flatten.map (fun e => (yearKey e, e))).filter (fun p => p.1 == k)) ∧
    (∀ (i j : Nat) (hi : i < (pooledSorted files).length)
      (hj : j < (pooledSorted files).length) (y : Int),
      validYear ((pooledSorted files).get ⟨i, hi⟩).2 = none →
      validYear ((pooledSorted files).get ⟨j, hj⟩).2 = some y → y < 9999 → j < i) := by
  refine ⟨pySort_pairwise _ _, pySort_perm _ _, fun k => pySort_filter _ _ _, ?_⟩
  intro i j hi hj y hni hsj hy
  have hki : ((pooledSorted files).get ⟨i, hi⟩).1 = 9999 := by
    rw [pooledSorted_key files _ (List.get_mem _ _ _)]
    exact yearKey_of_none hni
  have hkj : ((pooledSorted files).get ⟨j, hj⟩).1 = y := by
    rw [pooledSorted_key files _ (List.get_mem _ _ _)]
    exact yearKey_of_some hsj
  rcases Nat.lt_trichotomy j i with h | h | h
  · exact h
  · exfalso
    subst h
    rw [show (⟨j, hj⟩ : Fin (pooledSorted files).length) = ⟨j, hi⟩ from rfl] at hsj
    rw [hni] at hsj
    exact Option.noConfusion hsj
  · exfalso
    have hpw : (pooledSorted files).Pairwise (fun a b => a.1 ≤ b.1) := pySort_pairwise _ _
    have hle := List.pairwise_iff_get.mp hpw ⟨i, hi⟩ ⟨j, hj⟩ (Fin.mk_lt_mk.mpr h)
    rw [hki, hkj] at hle
    omega

/-- Claim C1, witness for the amended theorem: on the pool of an entry with no
year field and an entry with valid year 2020, the sentinel row is at index 1,
after the valid-year row at index 0. -/
theorem bib_rows_sorted_stable_witness :
    validYear ⟨[], []⟩ = none ∧ validYear ⟨[("year", "2020")], []⟩ = some 2020 ∧
    (2020 : Int) < 9999 ∧ (0 : Nat) < 1 := by
  refine ⟨by decide, by decide, by decide, ?_⟩
  exact (bib_rows_sorted_stable [[⟨[], []⟩, ⟨[("year", "2020")], []⟩]]).2.2.2 1 0
    (by decide) (by decide) 2020 (by decide) (by decide) (by decide)

/-- Claim C2: in first-author mode, for an entry whose rendered author list is
non-empty, a list of at most three authors is rendered as the comma-join of all
authors with the first bolded and nothing appended, while a list of more than
three authors is rendered as exactly the first three names (first bolded)
followed by ", et al.". -/
theorem first_author_cell_spec (year : Int) (e : BibEntry) (a : String) (rest : List String)
    (h : e.authors.map (fun p => latex_to_unicode p) = a :: rest) :
    (rest.length ≤ 2 →
      (mkRowCells true year e).authorsHtml =
        String.intercalate ", " (("<b>" ++ a ++ "</b>") :: rest)) ∧
    (2 < rest.length →
      (mkRowCells true year e).authorsHtml =
        String.intercalate ", " (("<b>" ++ a ++ "</b>") :: rest.take 2) ++ ", et al.") := by
  have hcell : (mkRowCells true year e).authorsHtml = authorsCell true (a :: rest) := by
    rw [show (mkRowCells true year e).authorsHtml =
      authorsCell true (e.authors.map (fun p => latex_to_unicode p)) from rfl, h]
  constructor
  · intro hlen
    rw [hcell]
    simp only [authorsCell]
    rw [if_neg (by simp only [List.length_cons]; omega)]
  · intro hlen
    rw [hcell]
    simp only [authorsCell]
    rw [if_pos (by simp only [List.length_cons]; omega), List.take_succ_cons]

/-- Claim C2, witness: four authors give the first three and ", et al.";
two authors give both in full with the first bolded and no "et al.". -/
theorem first_author_cell_spec_witness :
    (mkRowCells true 2020 ⟨[], ["A", "B", "C", "D"]⟩).authorsHtml = "<b>A</b>, B, C, et al." ∧
    (mkRowCells true 2020 ⟨[], ["A", "B"]⟩).authorsHtml = "<b>A</b>, B" := by
  constructor
  · exact ((first_author_cell_spec 2020 ⟨[], ["A", "B", "C", "D"]⟩ "A" ["B", "C", "D"]
      (by decide)).2 (by decide)).trans (by decide)
  · exact ((first_author_cell_spec 2020 ⟨[], ["A", "B"]⟩ "A" ["B"]
      (by decide)).1 (by decide)).trans (by decide)

/-- Claim C3, counterexample: the claim says the link target is the
DOI-resolution URL whenever a DOI field is present. For an entry whose `doi`
field is present but empty (and whose `url` field is set), the code renders the
`url` field, not `https://doi.org/`. -/
theorem doi_empty_field_counterexample :
    pyLookup "doi" [("doi", ""), ("url", "https://example.org")] = some "" ∧
    titleUrl [("doi", ""), ("url", "https://example.org")] = "https://example.org" ∧
    ¬ titleUrl [("doi", ""), ("url", "https://example.org")] = "https://doi.org/" :=
  ⟨by decide, by decide, by decide⟩

/-- Claim C3, amended: the title hyperlink target is `https://doi.org/<doi>`
whenever the DOI field is present and non-empty, regardless of the URL field;
when the DOI field is absent or empty the target is the URL field, defaulting
to the placeholder "#" when that is absent too. -/
theorem title_link_target (fields : List (String × String)) :
    (¬ pyGet fields "doi" "" = "" →
      titleUrl fields = "https://doi.org/" ++ pyGet fields "doi" "") ∧
    (pyGet fields "doi" "" = "" → titleUrl fields = pyGet fields "url" "#") := by
  have hdef : titleUrl fields =
      if pyGet fields "doi" "" = "" then pyGet fields "url" "#"
      else "https://doi.org/" ++ pyGet fields "doi" "" := rfl
  constructor
  · intro h
    rw [hdef, if_neg h]
  · intro h
    rw [hdef, if_pos h]

/-- Claim C3, witness: a non-empty DOI wins over a URL; without a DOI the URL
field is the target. -/
theorem title_link_target_witness :
    titleUrl [("doi", "10.1000/x"), ("url", "https://example.org")] =
      "https://doi.org/10.1000/x" ∧
    titleUrl [("url", "https://example.org")] = "https://example.org" := by
  constructor
  · exact ((title_link_target [("doi", "10.1000/x"), ("url", "https://example.org")]).1
      (by decide)).trans (by decide)
  · exact ((title_link_target [("url", "https://example.org")]).2 (by decide)).trans (by decide)

/-- Claim C4: the journal normalization maps the macro `\apj` to
"Astrophysical Journal", maps the twice-defined macro `\aap` to its second
definition "Astronomy & Astrophysics" (last write wins), and returns any
stripped journal string without an entry in the table unchanged. -/
theorem journal_map_spec :
    normalize_journal "\\apj" = "Astrophysical Journal" ∧
    normalize_journal "\\aap" = "Astronomy & Astrophysics" ∧
    ∀ j : String, pyLookup (pyStrip j) JOURNAL_MAP = none →
      normalize_journal j = pyStrip j := by
  refine ⟨by decide, by decide, ?_⟩
  intro j h
  simp [normalize_journal, pyGet, h]

/-- Claim C4, witness: " Zenodo " is not in the table and normalizes to its
stripped form "Zenodo". -/
theorem journal_map_spec_witness :
    pyLookup (pyStrip " Zenodo ") JOURNAL_MAP = none ∧
    normalize_journal " Zenodo " = "Zenodo" := by
  refine ⟨by decide, ?_⟩
  exact (journal_map_spec.2.2 " Zenodo " (by decide)).trans (by decide)

/-- Claim C5: the journal-info cell of every rendered row is the comma-join of
the normalized journal, volume, pages and year, in that order, with empty
components removed; in the concrete instance the empty volume is omitted. -/
theorem journal_info_cell :
    (∀ (flag : Bool) (year : Int) (e : BibEntry),
      (mkRowCells flag year e).journalInfo =
        String.intercalate ", " (List.filter (fun s => !(s == ""))
          [normalize_journal (pyGet e.fields "journal" ""), pyGet e.fields "volume" "",
            pyGet e.fields "pages" "", toString year])) ∧
    (mkRowCells true 2020 ⟨[("journal", "\\icarus"), ("pages", "100")], ["A"]⟩).journalInfo =
      "Icarus, 100, 2020" :=
  ⟨fun _ _ _ => rfl, by decide⟩

/-- Claim C6 (code bug): the claimed parsing rules are exactly what source
lines 70-88 implement, but the module never compiles — the stray U+30FC at
line 167 raises `SyntaxError` before `parse_txt_file` exists — so no run of
the shipped program ever parses a record. As the intended semantics of those
lines: the parser splits records at blank lines, skips lines without a colon,
splits a field line at its first colon into trimmed key and trimmed value (the
key part contains no colon and key, colon and value reassemble the line), and
a trailing record not followed by a blank line is still captured: the two-line
file with no trailing newline yields one record. -/
theorem presentation_parse_spec :
    (∀ ls₁ ls₂ : List String,
      parseLines (ls₁ ++ "" :: ls₂) = parseLines ls₁ ++ parseLines ls₂) ∧
    (∀ (pre post : List String) (l : String), ¬ pyStrip l = "" →
      (pyStrip l).data.contains ':' = false →
      parseLines (pre ++ l :: post) = parseLines (pre ++ post)) ∧
    (∀ (es : List Record) (cur : Record) (l : String), ¬ pyStrip l = "" →
      (pyStrip l).data.contains ':' = true →
      parseStep (es, cur) l =
        (es, pyInsert (pyStrip (keyOf (pyStrip l))) (pyStrip (valOf (pyStrip l))) cur)) ∧
    (∀ s : String, s.data.contains ':' = true →
      (keyOf s).data.contains ':' = false ∧
      (keyOf s).data ++ ':' :: (valOf s).data = s.data) ∧
    parse_txt_file "Presenters: A\nTitle: T" = [[("Presenters", "A"), ("Title", "T")]] := by
  refine ⟨parseLines_blank_split, parseLines_skip, ?_, ?_, by decide⟩
  · intro es cur l h1 h2
    simp only [parseStep]
    rw [if_neg h1, if_neg (fun hf => Bool.noConfusion (hf ▸ h2))]
  · intro s h
    exact ⟨takeWhile_no_colon s.data, takeWhile_colon_split s.data h⟩

/-- Claim C6, witness: a colon-less line between two field lines is skipped,
and a whitespace-padded field line is split at its first colon and trimmed. -/
theorem presentation_parse_spec_witness :
    parseLines ["A: 1", "zz", "B: 2"] = parseLines ["A: 1", "B: 2"] ∧
    parseStep ([], []) " Key : a:b " = ([], [("Key", "a:b")]) := by
  constructor
  · exact presentation_parse_spec.2.1 ["A: 1"] ["B: 2"] "zz" (by decide) (by decide)
  · exact (presentation_parse_spec.2.2.1 [] [] " Key : a:b " (by decide) (by decide)).trans
      (by decide)

/-- Claim C7 (code bug): the chart aggregation lives in
`plot_yearly_counts_scatter`, the function whose body holds the stray U+30FC
of line 167, so the shipped program raises `SyntaxError` and no record ever
contributes to any count. As the intended semantics of those lines: the
per-year chart count equals the number of records whose start year (first four
characters of the trimmed `Dates` prefix before the first `;` or en-dash)
parses to that year, so a record with unparseable start year is excluded from
every count while the table still renders one row per record; the record with
`Dates: 2023-04-10; 2023-04-12` counts towards year 2023. -/
theorem chart_counts_spec :
    (∀ (entries : List Record) (y : Int),
      count_per_year entries y = (entries.filterMap startYearOf).count y) ∧
    (∀ entries : List Record, (presTableRows entries).length = entries.length) ∧
    startYearOf [("Dates", "2023-04-10; 2023-04-12")] = some 2023 ∧
    count_per_year [[("Dates", "2023-04-10; 2023-04-12")]] 2023 = 1 := by
  refine ⟨count_per_year_eq, ?_, by decide, by decide⟩
  intro entries
  simp [presTableRows]

/-- Claim C8 (code bug in the presentation half): the bibliography converter
is a deterministic function of its inputs — the date available to the process
does not influence its output, as the first conjunct proves of the actual
code. The second conjunct is the intended behavior of the presentation
converter — outputs of two runs differing only in the interpolated date stamp
(same prefix, same suffix) — but the shipped module raises `SyntaxError`
(stray U+30FC at line 167) and never produces any output to compare. -/
theorem converter_determinism :
    (∀ (now₁ now₂ : String) (first nth : Option (List (List BibEntry))),
      bibRun now₁ first nth = bibRun now₂ first nth) ∧
    (∀ (now₁ now₂ : String) (fig : Option String) (dom intl : List Record),
      ∃ pre post : String,
        presRun now₁ fig dom intl = pre ++ now₁ ++ post ∧
        presRun now₂ fig dom intl = pre ++ now₂ ++ post) := by
  constructor
  · intro _ _ _ _
    rfl
  · intro now₁ now₂ fig dom intl
    refine ⟨PRES_A, PRES_B ++ pyFormatOptStr fig ++ PRES_C ++ presTables dom intl ++ PRES_D,
      ?_, ?_⟩ <;>
      simp only [presRun, String.append_assoc]

/-- Claim C9 (code bug): the shipped program never produces a presentation
page at all — the module raises `SyntaxError` (stray U+30FC at line 167)
before `main` — so the page the claim describes is never written. As the
intended semantics of the template and of `main`: when no chart path is
supplied, the page still embeds the image element, and its source attribute
receives the literal string "None" (the formatted absent argument), visible
between `src="` and `"`. -/
theorem fig_none_literal :
    pyFormatOptStr none = "None" ∧
    ∀ (now : String) (dom intl : List Record),
      presRun now none dom intl =
        PRES_A ++ now ++ " \n  <img src=\"" ++ "None" ++
          "\" alt=\"Presentations per Year\" style=\"max-width:100%;height:auto;\">\n\n" ++
          presTables dom intl ++ PRES_D :=
  ⟨rfl, fun _ _ _ => rfl⟩

/-- Claim C10 (code bug): the parser the invariant quantifies over can never
execute — the module raises `SyntaxError` (stray U+30FC at line 167) on every
run — so the shipped program returns no records of any kind. As the intended
semantics of lines 70-88: every record produced by the parser contains at
least one key-value field (no empty records), and a line list consisting only
of blank or colon-less lines parses to no records at all. -/
theorem parsed_records_nonempty :
    (∀ content : String, ∀ r ∈ parse_txt_file content, ¬ r = []) ∧
    (∀ lines : List String,
      (∀ l ∈ lines, pyStrip l = "" ∨ (pyStrip l).data.contains ':' = false) →
      parseLines lines = []) := by
  constructor
  · intro content r hr
    refine parseFinish_nonempty _ (foldl_keeps_nonempty (pyLines content) ([], []) ?_) r hr
    intro r' hr'
    simp at hr'
  · intro lines h
    unfold parseLines
    rw [foldl_all_skipped lines h]
    rfl

/-- Claim C10, witness: the single record parsed from "A: 1" is non-empty, and
a file of blank and colon-less lines parses to no records. -/
theorem parsed_records_nonempty_witness :
    ¬ ([("A", "1")] : Record) = [] ∧ parseLines ["", "zz", "  "] = [] := by
  constructor
  · exact parsed_records_nonempty.1 "A: 1" [("A", "1")] (by decide)
  · exact parsed_records_nonempty.2 ["", "zz", "  "] (by decide)

end Site
